import Mathlib

/-!
Verification of the image-cropper single-page interface (src/src/App.vue).

The component's script is shallowly embedded here:
* reactive refs become fields of `AppState` (JS numbers are modelled as `ℚ`;
  a JS value that may be `undefined` is modelled as an `Option`);
* `localStorage` is modelled by two fields holding the stored values for the
  keys `domainList` and `serviceDomain` (`none` = key absent);
* the outcome of the `fetch` + `response.json()` interaction is a value of
  `HttpOutcome`, covering rejection of the promise (network error), a non-2xx
  response, a JSON parse failure, and a successfully parsed body;
* `runDetection` returns the new state paired with a `Bool` recording whether
  the network request was actually issued;
* the two Vue watchers (`watch(serviceDomain, ...)` and
  `watch([imageUrl, threshold], ...)`) are embedded in `dispatch`, which maps a
  user action to the new state paired with a `Bool` recording whether the
  watcher re-invoked `runDetection`.
-/

/-- A bounding box `[x1, y1, x2, y2]` in original-image pixel coordinates. -/
structure Bbox where
  x1 : ℚ
  y1 : ℚ
  x2 : ℚ
  y2 : ℚ
deriving DecidableEq

/-- One detection object as returned by the remote service. -/
structure Detection where
  bbox : Bbox
  class_name : String
  confidence : ℚ
deriving DecidableEq

/-- The component's reactive state (the `ref`s of App.vue) together with the
two `localStorage` slots it reads and writes. `results = none` models the JS
value `undefined`. -/
structure AppState where
  file : Option String
  threshold : ℚ
  imageUrl : String
  results : Option (List Detection)
  isLoading : Bool
  error : String
  serviceDomain : String
  domainList : List String
  storedDomainList : Option (List String)
  storedServiceDomain : Option String
deriving DecidableEq

/-- Outcome of `fetch(url, {method POST, body})` followed by reading the
response: the promise rejected, the response was non-2xx (with its body text),
the response was 2xx but `response.json()` threw, or the body parsed to an
array of arrays of detections. -/
inductive HttpOutcome where
  | netError (msg : String)
  | httpError (status : Nat) (statusText : String) (bodyText : String)
  | parseError (msg : String)
  | parsed (data : List (List Detection))
deriving DecidableEq

/-- Default service address used when `localStorage` has no `serviceDomain`
key (App.vue line 21). -/
def defaultDomain : String := "https://ax-img-clip.dev.yiyiny.com"

/-- The validation message thrown when the service domain is empty
(App.vue line 78). -/
def emptyDomainMsg : String := "服务域名不能为空。"

/-- The notice shown when the response decodes to an empty outer array
(App.vue line 94). -/
def noTargetsMsg : String := "未检测到目标。请尝试调整置信度阈值。"

/-- The fallback used when a caught exception has a falsy message
(App.vue line 97: `e.message || '发生未知错误。'`). -/
def unknownErrorMsg : String := "发生未知错误。"

/-- `e.message || '发生未知错误。'` (App.vue line 97). -/
def errMessage (m : String) : String :=
  if m = "" then unknownErrorMsg else m

/-- `onMounted` (App.vue lines 19-32): load the saved domain list and the
last-used domain, seed the list with the resolved address when empty, and set
the current domain.  Assigning `serviceDomain.value` a non-empty value fires
the `watch(serviceDomain, ...)` watcher (lines 35-39), which persists it. -/
def onMountedInit (savedDomains : Option (List String)) (savedDomain : Option String) : AppState :=
  let lastUsed :=
    match savedDomain with
    | some d => if d = "" then defaultDomain else d
    | none => defaultDomain
  let dl :=
    match savedDomains with
    | some l => if l.length > 0 then l else [lastUsed]
    | none => [lastUsed]
  { file := none
    threshold := (1 : ℚ) / 2
    imageUrl := ""
    results := some []
    isLoading := false
    error := ""
    serviceDomain := lastUsed
    domainList := dl
    storedDomainList := savedDomains
    storedServiceDomain := if lastUsed = "" then savedDomain else some lastUsed }

/-- `addDomainToList` (App.vue lines 42-47): append the current domain to the
list and persist the list, when the domain is non-empty and not already
present. -/
def addDomainToList (s : AppState) : AppState :=
  if s.serviceDomain ≠ "" ∧ s.serviceDomain ∉ s.domainList then
    let l := s.domainList ++ [s.serviceDomain]
    { s with domainList := l, storedDomainList := some l }
  else s

/-- The prefix of `runDetection` that runs before the network request
(App.vue lines 66-71): raise the loading flag, clear `error` and `results`,
then `addDomainToList()`. -/
def detectPrep (s : AppState) : AppState :=
  addDomainToList { s with isLoading := true, error := "", results := some [] }

/-- The `finally` block of `runDetection` (App.vue lines 98-100). -/
def finallyDone (s : AppState) : AppState :=
  { s with isLoading := false }

/-- `runDetection` (App.vue lines 61-101).  Returns the post-state paired with
a `Bool` recording whether the `fetch` was issued.  With no file selected it
returns at once (line 62-64).  Otherwise it runs `detectPrep`, throws the
empty-domain validation error before fetching when `serviceDomain` is empty
(lines 77-79), and handles the four network outcomes: a rejected fetch and a
`json()` failure land in the `catch` (lines 96-97), a non-2xx response throws
the composed API-error message (lines 86-89) into the same `catch`, and a
parsed body `data` yields `results = data[0]` (JS: `undefined` when `data` is
empty) plus the no-targets notice when `data.length === 0` (lines 91-95). -/
def runDetection (s : AppState) (net : HttpOutcome) : AppState × Bool :=
  match s.file with
  | none => (s, false)
  | some _ =>
    let s1 := detectPrep s
    if s1.serviceDomain = "" then
      (finallyDone { s1 with error := errMessage emptyDomainMsg }, false)
    else
      match net with
      | .netError m => (finallyDone { s1 with error := errMessage m }, true)
      | .httpError status statusText bodyText =>
          let msg := "API 错误: " ++ toString status ++ " " ++ statusText ++ " - " ++ bodyText
          (finallyDone { s1 with error := errMessage msg }, true)
      | .parseError m => (finallyDone { s1 with error := errMessage m }, true)
      | .parsed data =>
          let s2 := { s1 with results := data.head? }
          let s3 := if data.length = 0 then { s2 with error := noTargetsMsg } else s2
          (finallyDone s3, true)

/-- A discrete user action on the session. -/
inductive Event where
  | setThreshold (v : ℚ)
  | setServiceAddress (a : String)
  | selectFile (name : String) (url : String)

/-- Apply a user action and report whether the watchers re-invoked
`runDetection`.  `watch([imageUrl, threshold], ...)` (App.vue lines 104-108)
fires when either watched ref changes and calls `runDetection()` iff
`imageUrl` is truthy; `watch(serviceDomain, ...)` (lines 35-39) only persists
the non-empty new value and never calls `runDetection`.  `selectFile` is
`handleFileChange` (lines 50-58). -/
def dispatch (s : AppState) (e : Event) : AppState × Bool :=
  match e with
  | .setThreshold v =>
      let s1 := { s with threshold := v }
      (s1, decide (v ≠ s.threshold) && decide (s1.imageUrl ≠ ""))
  | .setServiceAddress a =>
      let stored := if a ≠ s.serviceDomain ∧ a ≠ "" then some a else s.storedServiceDomain
      let s1 := { s with serviceDomain := a, storedServiceDomain := stored }
      (s1, false)
  | .selectFile name url =>
      let s1 := { s with
                  file := some name
                  imageUrl := url
                  results := some []
                  error := "" }
      (s1, decide (url ≠ s.imageUrl) && decide (url ≠ ""))

/-- Displayed or natural dimensions of an image element. -/
structure ImgDims where
  w : ℚ
  h : ℚ
deriving DecidableEq

/-- The overlay style object produced by `getBboxStyle`. -/
structure OverlayRect where
  left : ℚ
  top : ℚ
  width : ℚ
  height : ℚ
deriving DecidableEq

/-- `getBboxStyle` (App.vue lines 117-130): scale the bbox from natural-image
pixel space to displayed-image pixel space; return the empty style object
(modelled `none`) when either image ref is unavailable. -/
def getBboxStyle (bb : Bbox) (preview : Option ImgDims) (original : Option ImgDims) :
    Option OverlayRect :=
  match preview, original with
  | some p, some o =>
      let scaleX := p.w / o.w
      let scaleY := p.h / o.h
      some { left := bb.x1 * scaleX
             top := bb.y1 * scaleY
             width := (bb.x2 - bb.x1) * scaleX
             height := (bb.y2 - bb.y1) * scaleY }
  | _, _ => none

/-- The offscreen canvas and download produced by `downloadCrop`: canvas
dimensions, the source-image region passed to `drawImage`, and the suggested
file name. -/
structure CropResult where
  canvasWidth : ℚ
  canvasHeight : ℚ
  srcX : ℚ
  srcY : ℚ
  srcW : ℚ
  srcH : ℚ
  fileName : String
deriving DecidableEq

/-- `file.value.name.split('.')[0]`: the text before the first dot. -/
def baseName (n : String) : String :=
  (n.splitOn ".").headD ""

/-- `downloadCrop` (App.vue lines 133-153): no-op when the original image has
not loaded; otherwise size a canvas to `(x2-x1) × (y2-y1)`, draw the region
`[x1,y1]-[x2,y2]` of the original image onto it at the origin, and offer it as
a PNG named from the original file name's base and the detection index. -/
def downloadCrop (originalImage : Option ImgDims) (fileName : String)
    (bb : Bbox) (index : Nat) : Option CropResult :=
  match originalImage with
  | none => none
  | some _ =>
      let cropWidth := bb.x2 - bb.x1
      let cropHeight := bb.y2 - bb.y1
      some { canvasWidth := cropWidth
             canvasHeight := cropHeight
             srcX := bb.x1
             srcY := bb.y1
             srcW := cropWidth
             srcH := cropHeight
             fileName := "裁切_" ++ baseName fileName ++ "_" ++ toString index ++ ".png" }

/-! ### Helper lemmas about the embedded operations -/

theorem addDomainToList_serviceDomain (s : AppState) :
    (addDomainToList s).serviceDomain = s.serviceDomain := by
  unfold addDomainToList; split <;> rfl

theorem addDomainToList_file (s : AppState) :
    (addDomainToList s).file = s.file := by
  unfold addDomainToList; split <;> rfl

theorem addDomainToList_results (s : AppState) :
    (addDomainToList s).results = s.results := by
  unfold addDomainToList; split <;> rfl

theorem addDomainToList_error (s : AppState) :
    (addDomainToList s).error = s.error := by
  unfold addDomainToList; split <;> rfl

theorem addDomainToList_mem (s : AppState) (h : s.serviceDomain ≠ "") :
    s.serviceDomain ∈ (addDomainToList s).domainList := by
  unfold addDomainToList
  split
  · simp
  · rename_i hc
    rcases not_and_or.mp hc with h1 | h2
    · exact absurd h (by simpa using h1)
    · simpa using h2

theorem detectPrep_serviceDomain (s : AppState) :
    (detectPrep s).serviceDomain = s.serviceDomain := by
  unfold detectPrep
  rw [addDomainToList_serviceDomain]

theorem detectPrep_results (s : AppState) :
    (detectPrep s).results = some [] := by
  unfold detectPrep
  rw [addDomainToList_results]

theorem detectPrep_error (s : AppState) :
    (detectPrep s).error = "" := by
  unfold detectPrep
  rw [addDomainToList_error]

theorem detectPrep_mem (s : AppState) (h : s.serviceDomain ≠ "") :
    s.serviceDomain ∈ (detectPrep s).domainList := by
  unfold detectPrep
  exact addDomainToList_mem _ h

theorem detectPrep_persists (s : AppState) (h : s.serviceDomain ≠ "")
    (hnew : s.serviceDomain ∉ s.domainList) :
    (detectPrep s).storedDomainList = some ((detectPrep s).domainList) := by
  unfold detectPrep addDomainToList
  rw [if_pos]
  exact ⟨h, hnew⟩

theorem runDetection_domainList (s : AppState) (net : HttpOutcome)
    (hf : s.file.isSome = true) :
    (runDetection s net).1.domainList = (detectPrep s).domainList := by
  rcases hs : s.file with _ | f
  · rw [hs] at hf; simp at hf
  · simp only [runDetection, hs]
    split
    · rfl
    · cases net with
      | parsed data =>
          simp only [finallyDone]
          split <;> rfl
      | _ => rfl

theorem runDetection_fired (s : AppState) (net : HttpOutcome)
    (h : (runDetection s net).2 = true) :
    s.file.isSome = true ∧ s.serviceDomain ≠ "" := by
  rcases hs : s.file with _ | f
  · simp only [runDetection, hs] at h; exact absurd h (by simp)
  · refine ⟨by simp [hs], ?_⟩
    intro hd
    have hd1 : (detectPrep s).serviceDomain = "" := by
      rw [detectPrep_serviceDomain]; exact hd
    simp only [runDetection, hs, hd1, if_pos] at h
    exact absurd h (by simp)

/-! ### Concrete states used by witnesses and counterexamples -/

/-- A session with a file selected and a known, already-saved address. -/
def sampleState : AppState :=
  { file := some "photo.png"
    threshold := (1 : ℚ) / 2
    imageUrl := "blob:demo"
    results := some []
    isLoading := false
    error := ""
    serviceDomain := "https://svc.example"
    domainList := ["https://svc.example"]
    storedDomainList := some ["https://svc.example"]
    storedServiceDomain := some "https://svc.example" }

/-- A session with no file selected and an empty service address. -/
def noFileState : AppState :=
  { sampleState with file := none, serviceDomain := "" }

/-- A session with a file selected and a brand-new address not yet in the
domain list. -/
def newDomainState : AppState :=
  { sampleState with
    serviceDomain := "https://new.example"
    domainList := []
    storedDomainList := none }

/-- The state right after mounting the component with an empty `localStorage`. -/
def mountedFresh : AppState := onMountedInit none none

/-- `mountedFresh` after the user picks a file (which will re-trigger
detection through the `[imageUrl, threshold]` watcher). -/
def freshWithFile : AppState :=
  (dispatch mountedFresh (.selectFile "a.png" "blob:1")).1

/-! ### Claim theorems -/

/-- C8: `remember` (source: `addDomainToList`) is idempotent: it is a no-op
when the current address is empty or already a member of the domain list, and
otherwise appends it; starting from an empty list, calling it twice with the
same non-empty address yields a list of size 1. -/
theorem C8_remember_idempotent (s : AppState) :
    addDomainToList (addDomainToList s) = addDomainToList s ∧
    (s.serviceDomain = "" → addDomainToList s = s) ∧
    (s.serviceDomain ∈ s.domainList → addDomainToList s = s) ∧
    (s.domainList = [] → s.serviceDomain ≠ "" →
      (addDomainToList (addDomainToList s)).domainList.length = 1) := by
  have hnoop : ∀ t : AppState, ¬(t.serviceDomain ≠ "" ∧ t.serviceDomain ∉ t.domainList) →
      addDomainToList t = t := by
    intro t ht
    unfold addDomainToList
    rw [if_neg ht]
  have hpos : ∀ t : AppState, (t.serviceDomain ≠ "" ∧ t.serviceDomain ∉ t.domainList) →
      addDomainToList t =
        { t with domainList := t.domainList ++ [t.serviceDomain],
                 storedDomainList := some (t.domainList ++ [t.serviceDomain]) } := by
    intro t ht
    unfold addDomainToList
    rw [if_pos ht]
  have hidem : addDomainToList (addDomainToList s) = addDomainToList s := by
    by_cases hc : s.serviceDomain ≠ "" ∧ s.serviceDomain ∉ s.domainList
    · rw [hpos s hc]
      apply hnoop
      simp
    · rw [hnoop s hc, hnoop s hc]
  refine ⟨hidem, ?_, ?_, ?_⟩
  · intro h
    exact hnoop s (by simp [h])
  · intro h
    exact hnoop s (by simp [h])
  · intro hdl hne
    rw [hidem, hpos s ⟨hne, by simp [hdl]⟩]
    simp [hdl]

/-- Witness for C8 at a concrete state with an empty list and the new address
`https://new.example`. -/
theorem C8_remember_idempotent_witness :
    (addDomainToList (addDomainToList newDomainState)).domainList.length = 1 :=
  (C8_remember_idempotent newDomainState).2.2.2 rfl (by decide)

/-- C6: on every exit path of `runDetection` taken with a file selected
(success, validation failure, service error, network failure or parse
failure), the loading flag is false when the operation completes. -/
theorem C6_loading_false_on_exit (s : AppState) (net : HttpOutcome)
    (hf : s.file.isSome = true) :
    (runDetection s net).1.isLoading = false := by
  rcases hs : s.file with _ | f
  · rw [hs] at hf; simp at hf
  · simp only [runDetection, hs]
    split
    · rfl
    · cases net <;> rfl

/-- Witness for C6: a network failure on a session with a file selected still
ends with `isLoading = false`. -/
theorem C6_loading_false_on_exit_witness :
    (runDetection sampleState (.netError "boom")).1.isLoading = false :=
  C6_loading_false_on_exit sampleState (.netError "boom") rfl

/-- C9: every invocation of `runDetection` with a file selected resets
`results` to the empty list and `error` to the empty string before any network
activity (the pre-network phase `detectPrep`), so on every error exit
(validation failure, service error, network failure or parse failure)
`results` is the empty list rather than the previous result set. -/
theorem C9_results_reset_before_network (s : AppState) (m1 m2 statusText bodyText : String)
    (status : Nat) (hf : s.file.isSome = true) :
    ((detectPrep s).results = some [] ∧ (detectPrep s).error = "") ∧
    (runDetection s (.netError m1)).1.results = some [] ∧
    (runDetection s (.httpError status statusText bodyText)).1.results = some [] ∧
    (runDetection s (.parseError m2)).1.results = some [] := by
  rcases hs : s.file with _ | f
  · rw [hs] at hf; simp at hf
  · refine ⟨⟨detectPrep_results s, detectPrep_error s⟩, ?_, ?_, ?_⟩ <;>
      (simp only [runDetection, hs]
       split <;> simp [finallyDone, detectPrep_results])

/-- Witness for C9: a service error on a session that previously had a
non-empty result set still ends with empty `results`. -/
theorem C9_results_reset_before_network_witness :
    ((detectPrep sampleState).results = some [] ∧ (detectPrep sampleState).error = "") ∧
    (runDetection sampleState (.netError "down")).1.results = some [] ∧
    (runDetection sampleState (.httpError 500 "Internal Server Error" "boom")).1.results = some [] ∧
    (runDetection sampleState (.parseError "bad json")).1.results = some [] :=
  C9_results_reset_before_network sampleState "down" "bad json" "Internal Server Error" "boom" 500 rfl

/-- C10: a 2xx response whose body decodes to a non-empty outer array with an
empty first batch (`[[]]`, and generally `[] :: rest`) sets `results` to the
empty list and leaves `error` empty: the no-targets notice is produced only
when the outer array itself is empty. -/
theorem C10_first_batch_empty (s : AppState) (rest : List (List Detection))
    (hf : s.file.isSome = true) (hd : s.serviceDomain ≠ "") :
    (runDetection s (.parsed ([] :: rest))).1.results = some [] ∧
    (runDetection s (.parsed ([] :: rest))).1.error = "" ∧
    (runDetection s (.parsed ([] :: rest))).1.error ≠ noTargetsMsg := by
  rcases hs : s.file with _ | f
  · rw [hs] at hf; simp at hf
  · have hd1 : ¬((detectPrep s).serviceDomain = "") := by
      rw [detectPrep_serviceDomain]; exact hd
    have herr : (runDetection s (.parsed ([] :: rest))).1.error = "" := by
      simp only [runDetection, hs]
      rw [if_neg hd1]
      simp [finallyDone, detectPrep_error]
    refine ⟨?_, herr, ?_⟩
    · simp only [runDetection, hs]
      rw [if_neg hd1]
      simp [finallyDone]
    · rw [herr]
      decide

/-- Witness for C10 at the concrete body `[[]]` on a ready session. -/
theorem C10_first_batch_empty_witness :
    (runDetection sampleState (.parsed [[]])).1.results = some [] ∧
    (runDetection sampleState (.parsed [[]])).1.error = "" ∧
    (runDetection sampleState (.parsed [[]])).1.error ≠ noTargetsMsg :=
  C10_first_batch_empty sampleState [] rfl (by decide)

/-- A session with a file selected but an empty service address. -/
def emptyDomainState : AppState :=
  { sampleState with serviceDomain := "" }

/-- C1 (code-bug evidence): on a 2xx response whose body decodes to the empty
outer array `[]`, `runDetection` sets the no-targets notice without throwing,
but `results.value = data[0]` assigns JS `undefined` (modelled `none`) rather
than the empty list that the spec states and that the rest of the component
(`results.length` in the template) requires. -/
theorem C1_empty_body_results_undefined :
    (runDetection sampleState (.parsed [])).1.results = none ∧
    (runDetection sampleState (.parsed [])).1.results ≠ some [] ∧
    (runDetection sampleState (.parsed [])).1.error = noTargetsMsg ∧
    (runDetection sampleState (.parsed [])).2 = true := by
  refine ⟨rfl, by decide, rfl, rfl⟩

/-- C2 (counterexample): with a file selected, committing a new service
address does not re-trigger detection — the re-running watcher only watches
`[imageUrl, threshold]`, not `serviceDomain`. -/
theorem C2_counterexample :
    sampleState.file.isSome = true ∧
    "https://other.example" ≠ sampleState.serviceDomain ∧
    (dispatch sampleState (.setServiceAddress "https://other.example")).2 = false := by
  refine ⟨rfl, by decide, rfl⟩

/-- C2 (amended): while an image is present, committing a changed threshold
re-triggers `runDetection`; committing a changed service address never does —
it is only persisted as the last-used address. -/
theorem C2_retrigger_semantics (s : AppState) (v : ℚ) (a : String)
    (_hf : s.file.isSome = true) (himg : s.imageUrl ≠ "") (hv : v ≠ s.threshold) :
    (dispatch s (.setThreshold v)).2 = true ∧
    (dispatch s (.setServiceAddress a)).2 = false := by
  constructor
  · simp only [dispatch, Bool.and_eq_true, decide_eq_true_eq]
    exact ⟨hv, himg⟩
  · rfl

/-- Witness for C2 (amended) on a concrete ready session. -/
theorem C2_retrigger_semantics_witness :
    (dispatch sampleState (.setThreshold ((3 : ℚ) / 4))).2 = true ∧
    (dispatch sampleState (.setServiceAddress "https://other.example")).2 = false :=
  C2_retrigger_semantics sampleState ((3 : ℚ) / 4) "https://other.example" rfl
    (by decide) (by norm_num [sampleState])

/-- C4 (counterexample): invoking `runDetection` with no file selected returns
silently: it issues no network call, but it also surfaces no `ValidationError`
message, contrary to the claim. -/
theorem C4_counterexample :
    noFileState.file = none ∧
    noFileState.serviceDomain = "" ∧
    (runDetection noFileState (.parsed [])).2 = false ∧
    (runDetection noFileState (.parsed [])).1.error = "" ∧
    (runDetection noFileState (.parsed [])).1.error ≠ emptyDomainMsg := by
  refine ⟨rfl, rfl, rfl, rfl, by decide⟩

/-- C4 (amended): with a file selected and an empty service address,
`runDetection` surfaces the empty-address validation message as `errorMessage`
and issues no network call; with no file selected it returns with the state
unchanged and no network call (and no error message). -/
theorem C4_validation (s : AppState) (net : HttpOutcome) :
    (s.file.isSome = true → s.serviceDomain = "" →
      (runDetection s net).1.error = emptyDomainMsg ∧ (runDetection s net).2 = false) ∧
    (s.file = none → runDetection s net = (s, false)) := by
  constructor
  · intro hf hd
    rcases hs : s.file with _ | f
    · rw [hs] at hf; simp at hf
    · have hd1 : (detectPrep s).serviceDomain = "" := by
        rw [detectPrep_serviceDomain]; exact hd
      simp only [runDetection, hs]
      rw [if_pos hd1]
      refine ⟨?_, rfl⟩
      simp [finallyDone, errMessage, emptyDomainMsg]
  · intro hs
    simp only [runDetection, hs]

/-- Witness for C4 (amended): empty address with a file selected. -/
theorem C4_validation_witness :
    (runDetection emptyDomainState (.parsed [])).1.error = emptyDomainMsg ∧
    (runDetection emptyDomainState (.parsed [])).2 = false :=
  (C4_validation emptyDomainState (.parsed [])).1 rfl rfl

/-- The bbox `[10, 20, 110, 220]` named by the spec's test property. -/
def bbox3 : Bbox := ⟨10, 20, 110, 220⟩

/-- A 1000×1000 source image. -/
def dims1000 : ImgDims := ⟨1000, 1000⟩

/-- C3 (counterexample): `downloadCrop` on bbox `[10,20,110,220]` against a
loaded 1000×1000 source image produces a canvas of height `220 - 20 = 200`
pixels, not the 220 the claim states. -/
theorem C3_counterexample :
    (downloadCrop (some dims1000) "scroll.png" bbox3 0).map CropResult.canvasHeight
      = some 200 ∧
    (200 : ℚ) ≠ 220 := by
  constructor
  · simp [downloadCrop, bbox3]
    norm_num
  · norm_num

/-- C3 (amended): `downloadCrop` with a loaded source image draws the region
`[x1,y1]-[x2,y2]` of the original image onto a canvas sized exactly
`(x2-x1) × (y2-y1)`; in particular on bbox `[10,20,110,220]` the output is
exactly 100×200 pixels. -/
theorem C3_crop_dimensions (img : ImgDims) (name : String) (bb : Bbox) (i : Nat) :
    downloadCrop (some img) name bb i =
      some { canvasWidth := bb.x2 - bb.x1
             canvasHeight := bb.y2 - bb.y1
             srcX := bb.x1
             srcY := bb.y1
             srcW := bb.x2 - bb.x1
             srcH := bb.y2 - bb.y1
             fileName := "裁切_" ++ baseName name ++ "_" ++ toString i ++ ".png" } ∧
    (downloadCrop (some dims1000) "club.png" bbox3 1).map CropResult.canvasWidth
      = some 100 ∧
    (downloadCrop (some dims1000) "club.png" bbox3 1).map CropResult.canvasHeight
      = some 200 := by
  refine ⟨rfl, ?_, ?_⟩ <;> (simp [downloadCrop, bbox3]; norm_num)

/-- C5: `computeOverlayRect` (source: `getBboxStyle`) returns exactly the
rectangle `{left = x1·scaleX, top = y1·scaleY, width = (x2-x1)·scaleX,
height = (y2-y1)·scaleY}` with `scaleX = displayedWidth / naturalWidth` and
`scaleY = displayedHeight / naturalHeight` when both image refs are available,
returns the empty style object when either is missing, and its width and
height scale linearly with the displayed width and height respectively. -/
theorem C5_computeOverlayRect (bb : Bbox) (p o : ImgDims) (c : ℚ)
    (_hx1 : 0 ≤ bb.x1) (_hx : bb.x1 < bb.x2) (_hy1 : 0 ≤ bb.y1) (_hy : bb.y1 < bb.y2)
    (_hw : 0 < o.w) (_hh : 0 < o.h) :
    getBboxStyle bb (some p) (some o) =
      some { left := bb.x1 * (p.w / o.w)
             top := bb.y1 * (p.h / o.h)
             width := (bb.x2 - bb.x1) * (p.w / o.w)
             height := (bb.y2 - bb.y1) * (p.h / o.h) } ∧
    getBboxStyle bb none (some o) = none ∧
    getBboxStyle bb (some p) none = none ∧
    (getBboxStyle bb (some ⟨c * p.w, p.h⟩) (some o)).map OverlayRect.width =
      (getBboxStyle bb (some p) (some o)).map (fun r => c * r.width) ∧
    (getBboxStyle bb (some ⟨p.w, c * p.h⟩) (some o)).map OverlayRect.height =
      (getBboxStyle bb (some p) (some o)).map (fun r => c * r.height) := by
  refine ⟨rfl, rfl, rfl, ?_, ?_⟩ <;> (simp [getBboxStyle]; ring)

/-- Witness for C5 on bbox `[0,0,10,10]`, a 500×600 display and a 1000×1000
natural image. -/
theorem C5_computeOverlayRect_witness :
    getBboxStyle ⟨0, 0, 10, 10⟩ (some ⟨500, 600⟩) (some ⟨1000, 1000⟩) =
      some { left := 0 * (500 / 1000)
             top := 0 * (600 / 1000)
             width := (10 - 0) * (500 / 1000)
             height := (10 - 0) * (600 / 1000) } :=
  (C5_computeOverlayRect ⟨0, 0, 10, 10⟩ ⟨500, 600⟩ ⟨1000, 1000⟩ 2
    (by norm_num) (by norm_num) (by norm_num) (by norm_num) (by norm_num) (by norm_num)).1

/-- C7 (counterexample): mounting with empty storage seeds `domainList` with
the default address in memory only; selecting a file then fires a detection
request with that non-empty address while the stored domain list is still
absent — the address was neither appended nor persisted before the request
fired. -/
theorem C7_counterexample :
    freshWithFile.serviceDomain = defaultDomain ∧
    defaultDomain ≠ "" ∧
    (runDetection freshWithFile (.parsed [[]])).2 = true ∧
    (runDetection freshWithFile (.parsed [[]])).1.storedDomainList = none := by
  refine ⟨rfl, by decide, rfl, rfl⟩

/-- C7 (amended): whenever `runDetection` actually fires the network request,
the current address is non-empty and is a member of `domainList` both in the
pre-fetch state (`detectPrep`) and in the final state; when the address was
not already in the list, the pre-fetch state has also persisted the updated
list.  (A mount-seeded address is already in the list, so it fires without
ever being persisted.) -/
theorem C7_membership (s : AppState) (net : HttpOutcome)
    (hfired : (runDetection s net).2 = true) :
    s.serviceDomain ≠ "" ∧
    s.serviceDomain ∈ (detectPrep s).domainList ∧
    s.serviceDomain ∈ (runDetection s net).1.domainList ∧
    (s.serviceDomain ∉ s.domainList →
      (detectPrep s).storedDomainList = some ((detectPrep s).domainList)) := by
  obtain ⟨hf, hd⟩ := runDetection_fired s net hfired
  refine ⟨hd, detectPrep_mem s hd, ?_, ?_⟩
  · rw [runDetection_domainList s net hf]
    exact detectPrep_mem s hd
  · intro hnew
    exact detectPrep_persists s hd hnew

/-- Witness for C7 (amended) on a session whose address is new. -/
theorem C7_membership_witness :
    newDomainState.serviceDomain ≠ "" ∧
    newDomainState.serviceDomain ∈ (detectPrep newDomainState).domainList ∧
    newDomainState.serviceDomain ∈ (runDetection newDomainState (.parsed [[]])).1.domainList ∧
    (newDomainState.serviceDomain ∉ newDomainState.domainList →
      (detectPrep newDomainState).storedDomainList =
        some ((detectPrep newDomainState).domainList)) :=
  C7_membership newDomainState (.parsed [[]]) rfl
